import Mathlib

/-!
Shallow embedding of `brainstorm/training/steppers.py`: the training-step
engine (`TrainingStep`, `ForwardStep`, `SgdStep`, `MomentumStep`,
`NesterovStep`).

Modelling choices:
* Tensors are lists of rationals; handler primitives (`zeros`, `mult_st`,
  `add_tt`, `mult_add_st`) act elementwise, each with an explicit output
  destination just like the Python `out=` convention (the result list is
  the new contents of the destination buffer).
* A `Network` is the collaborator contract consumed by the steps: the
  parameter and gradient buffers plus pure oracles `lossFn` / `gradFn`
  describing what `forward_pass` + `get_loss_value` and `backward_pass`
  produce as a function of the current parameter buffer.
* A `Schedule` is a stream of scalars with a cursor; calling it returns
  the value at the cursor and advances the cursor, exactly once per call.
* The Python `self.net = None` state is an `Option Network`; `run` on a
  concrete step fails with an attribute-access error when it is `none`,
  mirroring CPython's `AttributeError` on `None.forward_pass` etc.
* `run` additionally returns the trace of network/handler calls it
  issued, in program order, so call-count and ordering properties are
  statable.
-/

namespace Brainstorm

abbrev Tensor := List ℚ

/-- Handler `zeros(shape)`: a zero-filled tensor of the given size. -/
def zeros (n : ℕ) : Tensor := List.replicate n 0

/-- Handler `mult_st(s, t, out=...)`: overwrite the destination with `s * t`. -/
def mult_st (s : ℚ) (t : Tensor) : Tensor := t.map (fun x => s * x)

/-- Handler `add_tt(a, b, out=...)`: overwrite the destination with `a + b`. -/
def add_tt (a b : Tensor) : Tensor := List.zipWith (fun x y => x + y) a b

/-- Handler `mult_add_st(s, t, out)`: accumulate `s * t` into `out`. -/
def mult_add_st (s : ℚ) (t out : Tensor) : Tensor :=
  List.zipWith (fun o x => o + s * x) out t

/-- The network contract consumed by training steps (`forward_pass`,
`get_loss_value`, `backward_pass`, `buffer.parameters`, `buffer.gradients`).
`lossFn p` is the loss observed by a forward pass run with parameter buffer
`p`; `gradFn p` is the gradient buffer contents populated by a backward pass
run with parameter buffer `p`. -/
structure Network where
  parameters : Tensor
  gradients : Tensor
  lossFn : Tensor → ℚ
  gradFn : Tensor → Tensor

/-- A stateful scalar schedule: a stream of values and a cursor. -/
structure Schedule where
  f : ℕ → ℚ
  t : ℕ

/-- Calling a schedule: return the current value and advance the cursor. -/
def Schedule.call (s : Schedule) : ℚ × Schedule := (s.f s.t, ⟨s.f, s.t + 1⟩)

/-- The value the next `call` will return. -/
def Schedule.peek (s : Schedule) : ℚ := s.f s.t

/-- Factory `get_schedule` applied to a plain constant: a constant schedule. -/
def get_schedule (c : ℚ) : Schedule := ⟨fun _ => c, 0⟩

/-- The network / handler calls a `run()` can issue, recorded in program
order. -/
inductive Event where
  | forward_pass (training_pass : Bool)
  | get_loss_value
  | backward_pass
  | mult_st
  | add_tt
  | mult_add_st
deriving DecidableEq, Repr

/-- Python-level faults a `run()` can raise in this model. -/
inductive PyError where
  | attributeError (msg : String)
  | typeError (msg : String)
deriving DecidableEq, Repr

/-- A dynamically-typed Python value, as far as the
`isinstance(scale_learning_rate, bool)` contract needs. -/
inductive PyVal where
  | bool (b : Bool)
  | int (n : ℤ)
  | str (s : String)
  | float (q : ℚ)
deriving DecidableEq, Repr

/-- Python `isinstance(v, bool)`: true only for genuine booleans (in
particular `1` and `"yes"` are not instances of `bool`). -/
def PyVal.isinstance_bool : PyVal → Bool
  | .bool _ => true
  | _ => false

/-- Whether an `Except` result is a success. -/
def isOkB {ε α : Type} : Except ε α → Bool
  | .ok _ => true
  | .error _ => false

/-! ### Base class `TrainingStep` -/

/-- Base-class state: just the (possibly unset) network reference. -/
structure TrainingStep where
  net : Option Network

/-- Python `TrainingStep.__init__`: `self.net = None`. -/
def TrainingStep.init : TrainingStep := ⟨none⟩

/-- Python `TrainingStep.start(net)`: bind the network (the base `_initialize`
hook is a no-op). -/
def TrainingStep.start (_ : TrainingStep) (net : Network) : TrainingStep :=
  ⟨some net⟩

/-- The base `TrainingStep.run`: `pass`, i.e. do nothing and return `None`
(no loss value). -/
def TrainingStep.run (_ : TrainingStep) : Option ℚ := none

/-! ### `ForwardStep` -/

structure ForwardStep where
  net : Option Network
  use_training_pass : Bool

/-- Python `ForwardStep.__init__(use_training_pass)`. -/
def ForwardStep.init (use_training_pass : Bool) : ForwardStep :=
  ⟨none, use_training_pass⟩

/-- Construction `ForwardStep()` with the default argument `use_training_pass=False`. -/
def ForwardStep.initDefault : ForwardStep := ForwardStep.init false

/-- Method `ForwardStep.start` is inherited from the base class unchanged. -/
def ForwardStep.start (s : ForwardStep) (net : Network) : ForwardStep :=
  { s with net := some net }

/-- Python `ForwardStep.run`: forward pass with the configured flag, return the
loss. -/
def ForwardStep.run (s : ForwardStep) :
    Except PyError (ℚ × ForwardStep × List Event) :=
  match s.net with
  | none => .error (.attributeError "NoneType object has no attribute forward_pass")
  | some net =>
      .ok (net.lossFn net.parameters, s,
        [.forward_pass s.use_training_pass, .get_loss_value])

/-! ### `SgdStep` -/

structure SgdStep where
  net : Option Network
  learning_rate_schedule : Schedule
  update : Option Tensor

/-- Python `SgdStep.__init__(learning_rate)`: build the schedule, `update = None`. -/
def SgdStep.init (learning_rate : ℚ) : SgdStep :=
  ⟨none, get_schedule learning_rate, none⟩

/-- Python `SgdStep.start(net)`: bind the network and allocate the zero-filled
`update` tensor with the parameters' shape. -/
def SgdStep.start (s : SgdStep) (net : Network) : SgdStep :=
  { s with net := some net, update := some (zeros net.parameters.length) }

/-- Python `SgdStep.run`: sample the learning rate, forward, capture loss,
backward, overwrite `update` with `gradients * (-lr)`, add it into
`parameters` in place, return the loss. -/
def SgdStep.run (s : SgdStep) :
    Except PyError (ℚ × SgdStep × List Event) :=
  let lrc := s.learning_rate_schedule.call
  match s.net with
  | none => .error (.attributeError "NoneType object has no attribute forward_pass")
  | some net =>
      let loss := net.lossFn net.parameters
      let gradients := net.gradFn net.parameters
      let update := mult_st (-lrc.1) gradients
      let parameters := add_tt update net.parameters
      .ok (loss,
        { s with
            learning_rate_schedule := lrc.2,
            update := some update,
            net := some { net with parameters := parameters,
                                   gradients := gradients } },
        [.forward_pass true, .get_loss_value, .backward_pass,
         .mult_st, .add_tt])

/-! ### `MomentumStep` -/

structure MomentumStep where
  net : Option Network
  learning_rate_schedule : Schedule
  momentum_schedule : Schedule
  scale_learning_rate : Bool
  velocity : Option Tensor

/-- Python `MomentumStep.__init__(learning_rate, momentum, scale_learning_rate)`:
asserts `isinstance(scale_learning_rate, bool)` and fails construction
otherwise. -/
def MomentumStep.init (learning_rate momentum : ℚ)
    (scale_learning_rate : PyVal) : Except String MomentumStep :=
  match scale_learning_rate with
  | .bool b =>
      .ok ⟨none, get_schedule learning_rate, get_schedule momentum, b, none⟩
  | _ => .error "scale_learning_rate must be True or False."

/-- Python `MomentumStep.start(net)`: bind the network and allocate the
zero-filled `velocity` tensor with the parameters' shape. -/
def MomentumStep.start (s : MomentumStep) (net : Network) : MomentumStep :=
  { s with net := some net, velocity := some (zeros net.parameters.length) }

/-- Python `MomentumStep.run`: sample both schedules, optionally scale the
learning rate by `(1 - momentum)`, forward, capture loss, backward, decay
the velocity, accumulate `gradients * (-lr)` into it, add the velocity
into `parameters` in place, return the loss. -/
def MomentumStep.run (s : MomentumStep) :
    Except PyError (ℚ × MomentumStep × List Event) :=
  let lrc := s.learning_rate_schedule.call
  let mc := s.momentum_schedule.call
  let learning_rate :=
    if s.scale_learning_rate then lrc.1 * (1 - mc.1) else lrc.1
  match s.net with
  | none => .error (.attributeError "NoneType object has no attribute forward_pass")
  | some net =>
      match s.velocity with
      | none => .error (.typeError "velocity has not been allocated")
      | some velocity0 =>
          let loss := net.lossFn net.parameters
          let gradients := net.gradFn net.parameters
          let velocity1 := mult_st mc.1 velocity0
          let velocity2 := mult_add_st (-learning_rate) gradients velocity1
          let parameters := add_tt velocity2 net.parameters
          .ok (loss,
            { s with
                learning_rate_schedule := lrc.2,
                momentum_schedule := mc.2,
                velocity := some velocity2,
                net := some { net with parameters := parameters,
                                       gradients := gradients } },
            [.forward_pass true, .get_loss_value, .backward_pass,
             .mult_st, .mult_add_st, .add_tt])

/-! ### `NesterovStep`

`NesterovStep` subclasses `MomentumStep` and overrides only `run`; it
shares `MomentumStep`'s state, constructor and `start`. -/

/-- Python `NesterovStep.__init__` is inherited from `MomentumStep`. -/
def NesterovStep.init (learning_rate momentum : ℚ)
    (scale_learning_rate : PyVal) : Except String MomentumStep :=
  MomentumStep.init learning_rate momentum scale_learning_rate

/-- Python `NesterovStep.run`: sample both schedules, optionally scale the
learning rate, decay the velocity in place, add it into `parameters`
(lookahead) before the forward pass, forward, capture loss, backward at
the lookahead point, then accumulate `gradients * (-lr)` into both the
velocity and the parameters, return the loss. -/
def NesterovStep.run (s : MomentumStep) :
    Except PyError (ℚ × MomentumStep × List Event) :=
  let lrc := s.learning_rate_schedule.call
  let mc := s.momentum_schedule.call
  let learning_rate :=
    if s.scale_learning_rate then lrc.1 * (1 - mc.1) else lrc.1
  match s.net with
  | none => .error (.attributeError "NoneType object has no attribute handler")
  | some net =>
      match s.velocity with
      | none => .error (.typeError "velocity has not been allocated")
      | some velocity0 =>
          let velocity1 := mult_st mc.1 velocity0
          let parameters1 := add_tt velocity1 net.parameters
          let loss := net.lossFn parameters1
          let gradients := net.gradFn parameters1
          let velocity2 := mult_add_st (-learning_rate) gradients velocity1
          let parameters2 := mult_add_st (-learning_rate) gradients parameters1
          .ok (loss,
            { s with
                learning_rate_schedule := lrc.2,
                momentum_schedule := mc.2,
                velocity := some velocity2,
                net := some { net with parameters := parameters2,
                                       gradients := gradients } },
            [.mult_st, .add_tt, .forward_pass true, .get_loss_value,
             .backward_pass, .mult_add_st, .mult_add_st])

/-! ### Elementwise algebra of the handler primitives -/

theorem mult_add_st_mult_st (c m : ℚ) (v g : Tensor) :
    mult_add_st c g (mult_st m v) =
      List.zipWith (fun a b => m * a + c * b) v g := by
  simp [mult_add_st, mult_st, List.zipWith_map_left]

theorem zipWith_add_acc_comm (c : ℚ) :
    ∀ (v p g : Tensor),
      List.zipWith (fun o x => o + c * x)
          (List.zipWith (fun x y => x + y) v p) g
        = List.zipWith (fun x y => x + y)
            (List.zipWith (fun o x => o + c * x) v g) p := by
  intro v
  induction v with
  | nil => intro p g; simp
  | cons a v ih =>
      intro p g
      cases p with
      | nil => simp
      | cons b p =>
          cases g with
          | nil => simp
          | cons x g =>
              simp only [List.zipWith_cons_cons]
              exact congrArg₂ _ (by ring) (ih p g)

theorem add_tt_comm (a b : Tensor) :
    add_tt a b = add_tt b a :=
  List.zipWith_comm_of_comm _ (fun x y => add_comm x y) a b

/-- A concrete two-parameter network used by the witnesses: parameters
`[1, 2]`, loss constantly `5`, gradients equal to the current parameters. -/
def net2 : Network := ⟨[1, 2], [0, 0], fun _ => 5, fun p => p⟩

theorem sgd_run_eq (s : SgdStep) (net : Network)
    (h1 : s.net = some net) :
    SgdStep.run s =
      Except.ok (net.lossFn net.parameters,
        { s with
            learning_rate_schedule :=
              ⟨s.learning_rate_schedule.f, s.learning_rate_schedule.t + 1⟩,
            update := some ((net.gradFn net.parameters).map
              (fun g_i => -(s.learning_rate_schedule.peek * g_i))),
            net := some { net with
              parameters := List.zipWith
                (fun p_i g_i => p_i - s.learning_rate_schedule.peek * g_i)
                net.parameters (net.gradFn net.parameters),
              gradients := net.gradFn net.parameters } },
        [Event.forward_pass true, Event.get_loss_value, Event.backward_pass,
         Event.mult_st, Event.add_tt]) := by
  have hupd : ∀ lr : ℚ, mult_st (-lr) (net.gradFn net.parameters) =
      (net.gradFn net.parameters).map (fun g_i => -(lr * g_i)) := by
    intro lr; simp [mult_st]
  have hpar : ∀ lr : ℚ,
      add_tt ((net.gradFn net.parameters).map (fun g_i => -(lr * g_i)))
          net.parameters
      = List.zipWith (fun p_i g_i => p_i - lr * g_i)
          net.parameters (net.gradFn net.parameters) := by
    intro lr
    rw [add_tt_comm, add_tt, List.zipWith_map_right]
    have hf : (fun (a b : ℚ) => a + -(lr * b)) = fun a b => a - lr * b := by
      funext a b; ring
    rw [hf]
  simp only [SgdStep.run, Schedule.call, h1, Schedule.peek, hupd, hpar]

/-- C3: after `start()`, `SgdStep.run` samples the learning rate `lr`,
returns the loss observed for the iteration, fully overwrites the `update`
tensor with `gradients * (-lr)` regardless of its previous contents, and
updates the parameters in place to `parameters - lr * gradients`. -/
theorem sgd_run_spec (s : SgdStep) (net : Network)
    (h1 : s.net = some net) :
    SgdStep.run s =
      Except.ok (net.lossFn net.parameters,
        { s with
            learning_rate_schedule :=
              ⟨s.learning_rate_schedule.f, s.learning_rate_schedule.t + 1⟩,
            update := some ((net.gradFn net.parameters).map
              (fun g_i => -(s.learning_rate_schedule.peek * g_i))),
            net := some { net with
              parameters := List.zipWith
                (fun p_i g_i => p_i - s.learning_rate_schedule.peek * g_i)
                net.parameters (net.gradFn net.parameters),
              gradients := net.gradFn net.parameters } },
        [Event.forward_pass true, Event.get_loss_value, Event.backward_pass,
         Event.mult_st, Event.add_tt]) :=
  sgd_run_eq s net h1

/-- An `SgdStep` with learning rate `0.1`, started on `net2`. -/
def sgd2 : SgdStep := SgdStep.start (SgdStep.init (1/10)) net2

/-- Witness for C3 at the concrete step `sgd2`. -/
theorem sgd_run_spec_witness :
    sgd2.net = some net2 ∧
    SgdStep.run sgd2 =
      Except.ok (net2.lossFn net2.parameters,
        { sgd2 with
            learning_rate_schedule :=
              ⟨sgd2.learning_rate_schedule.f, sgd2.learning_rate_schedule.t + 1⟩,
            update := some ((net2.gradFn net2.parameters).map
              (fun g_i => -(sgd2.learning_rate_schedule.peek * g_i))),
            net := some { net2 with
              parameters := List.zipWith
                (fun p_i g_i => p_i - sgd2.learning_rate_schedule.peek * g_i)
                net2.parameters (net2.gradFn net2.parameters),
              gradients := net2.gradFn net2.parameters } },
        [Event.forward_pass true, Event.get_loss_value, Event.backward_pass,
         Event.mult_st, Event.add_tt]) :=
  ⟨rfl, sgd_run_spec sgd2 net2 rfl⟩

/-- The effective learning rate a `MomentumStep` (or `NesterovStep`) uses
in one `run()` call: the sampled learning rate, times `(1 - momentum)` if
and only if `scale_learning_rate` is set, with the momentum value sampled
in that same call. -/
def MomentumStep.effective_learning_rate (s : MomentumStep) : ℚ :=
  if s.scale_learning_rate then
    s.learning_rate_schedule.peek * (1 - s.momentum_schedule.peek)
  else s.learning_rate_schedule.peek

theorem momentum_run_eq (s : MomentumStep) (net : Network) (v0 : Tensor)
    (h1 : s.net = some net) (h2 : s.velocity = some v0) :
    MomentumStep.run s =
      Except.ok (net.lossFn net.parameters,
        { s with
            learning_rate_schedule :=
              ⟨s.learning_rate_schedule.f, s.learning_rate_schedule.t + 1⟩,
            momentum_schedule :=
              ⟨s.momentum_schedule.f, s.momentum_schedule.t + 1⟩,
            velocity := some (List.zipWith
              (fun v_i g_i => s.momentum_schedule.peek * v_i -
                s.effective_learning_rate * g_i)
              v0 (net.gradFn net.parameters)),
            net := some { net with
              parameters := List.zipWith (fun x y => x + y)
                (List.zipWith
                  (fun v_i g_i => s.momentum_schedule.peek * v_i -
                    s.effective_learning_rate * g_i)
                  v0 (net.gradFn net.parameters))
                net.parameters,
              gradients := net.gradFn net.parameters } },
        [Event.forward_pass true, Event.get_loss_value, Event.backward_pass,
         Event.mult_st, Event.mult_add_st, Event.add_tt]) := by
  have hvel : ∀ lr m : ℚ,
      mult_add_st (-lr) (net.gradFn net.parameters) (mult_st m v0)
      = List.zipWith (fun v_i g_i => m * v_i - lr * g_i)
          v0 (net.gradFn net.parameters) := by
    intro lr m
    rw [mult_add_st_mult_st]
    have hf : (fun (a b : ℚ) => m * a + -lr * b)
        = fun v_i g_i => m * v_i - lr * g_i := by
      funext a b; ring
    rw [hf]
  simp only [MomentumStep.run, Schedule.call, h1, h2,
    MomentumStep.effective_learning_rate, Schedule.peek, hvel, add_tt]

/-- C2: after `start()`, `MomentumStep.run` uses the effective learning
rate `lr * (1 - m)` exactly when `scale_learning_rate` is set (with the
momentum `m` sampled in the same call), sets
`velocity' = m * velocity - lr_eff * gradients`, sets
`parameters' = velocity' + parameters` in place, and returns the loss
captured by the forward pass before the parameter update. -/
theorem momentum_run_spec (s : MomentumStep) (net : Network) (v0 : Tensor)
    (h1 : s.net = some net) (h2 : s.velocity = some v0) :
    MomentumStep.run s =
      Except.ok (net.lossFn net.parameters,
        { s with
            learning_rate_schedule :=
              ⟨s.learning_rate_schedule.f, s.learning_rate_schedule.t + 1⟩,
            momentum_schedule :=
              ⟨s.momentum_schedule.f, s.momentum_schedule.t + 1⟩,
            velocity := some (List.zipWith
              (fun v_i g_i => s.momentum_schedule.peek * v_i -
                s.effective_learning_rate * g_i)
              v0 (net.gradFn net.parameters)),
            net := some { net with
              parameters := List.zipWith (fun x y => x + y)
                (List.zipWith
                  (fun v_i g_i => s.momentum_schedule.peek * v_i -
                    s.effective_learning_rate * g_i)
                  v0 (net.gradFn net.parameters))
                net.parameters,
              gradients := net.gradFn net.parameters } },
        [Event.forward_pass true, Event.get_loss_value, Event.backward_pass,
         Event.mult_st, Event.mult_add_st, Event.add_tt]) :=
  momentum_run_eq s net v0 h1 h2

/-- A `MomentumStep` mid-training on `net2`: schedule cursors at `3`,
velocity `[1, -1]`, `scale_learning_rate` set. -/
def momv : MomentumStep :=
  ⟨some net2, ⟨fun _ => 1/10, 3⟩, ⟨fun _ => 1/2, 3⟩, true, some [1, -1]⟩

/-- Witness for C2 at the concrete step `momv`. -/
theorem momentum_run_spec_witness :
    momv.net = some net2 ∧ momv.velocity = some [1, -1] ∧
    MomentumStep.run momv =
      Except.ok (net2.lossFn net2.parameters,
        { momv with
            learning_rate_schedule :=
              ⟨momv.learning_rate_schedule.f, momv.learning_rate_schedule.t + 1⟩,
            momentum_schedule :=
              ⟨momv.momentum_schedule.f, momv.momentum_schedule.t + 1⟩,
            velocity := some (List.zipWith
              (fun v_i g_i => momv.momentum_schedule.peek * v_i -
                momv.effective_learning_rate * g_i)
              [1, -1] (net2.gradFn net2.parameters)),
            net := some { net2 with
              parameters := List.zipWith (fun x y => x + y)
                (List.zipWith
                  (fun v_i g_i => momv.momentum_schedule.peek * v_i -
                    momv.effective_learning_rate * g_i)
                  [1, -1] (net2.gradFn net2.parameters))
                net2.parameters,
              gradients := net2.gradFn net2.parameters } },
        [Event.forward_pass true, Event.get_loss_value, Event.backward_pass,
         Event.mult_st, Event.mult_add_st, Event.add_tt]) :=
  ⟨rfl, rfl, momentum_run_spec momv net2 [1, -1] rfl rfl⟩

theorem nesterov_param_step (m lr : ℚ) :
    ∀ (p v g : Tensor),
      mult_add_st (-lr) g (List.zipWith (fun p_i v_i => p_i + m * v_i) p v)
        = List.zipWith (fun x y => x + y) p
            (List.zipWith (fun v_i g_i => m * v_i - lr * g_i) v g) := by
  intro p
  induction p with
  | nil => intro v g; simp [mult_add_st]
  | cons a p ih =>
      intro v g
      cases v with
      | nil => simp [mult_add_st]
      | cons b v =>
          cases g with
          | nil => simp [mult_add_st]
          | cons x g =>
              simp only [List.zipWith_cons_cons, mult_add_st] at *
              exact congrArg₂ _ (by ring) (ih v g)

theorem nesterov_run_eq (s : MomentumStep) (net : Network) (v0 : Tensor)
    (h1 : s.net = some net) (h2 : s.velocity = some v0) :
    NesterovStep.run s =
      Except.ok
        (net.lossFn (List.zipWith
          (fun p_i v_i => p_i + s.momentum_schedule.peek * v_i)
          net.parameters v0),
        { s with
            learning_rate_schedule :=
              ⟨s.learning_rate_schedule.f, s.learning_rate_schedule.t + 1⟩,
            momentum_schedule :=
              ⟨s.momentum_schedule.f, s.momentum_schedule.t + 1⟩,
            velocity := some (List.zipWith
              (fun v_i g_i => s.momentum_schedule.peek * v_i -
                s.effective_learning_rate * g_i)
              v0
              (net.gradFn (List.zipWith
                (fun p_i v_i => p_i + s.momentum_schedule.peek * v_i)
                net.parameters v0))),
            net := some { net with
              parameters := List.zipWith (fun x y => x + y) net.parameters
                (List.zipWith
                  (fun v_i g_i => s.momentum_schedule.peek * v_i -
                    s.effective_learning_rate * g_i)
                  v0
                  (net.gradFn (List.zipWith
                    (fun p_i v_i => p_i + s.momentum_schedule.peek * v_i)
                    net.parameters v0))),
              gradients := net.gradFn (List.zipWith
                (fun p_i v_i => p_i + s.momentum_schedule.peek * v_i)
                net.parameters v0) } },
        [Event.mult_st, Event.add_tt, Event.forward_pass true,
         Event.get_loss_value, Event.backward_pass, Event.mult_add_st,
         Event.mult_add_st]) := by
  have hlook : ∀ m : ℚ, add_tt (mult_st m v0) net.parameters
      = List.zipWith (fun p_i v_i => p_i + m * v_i) net.parameters v0 := by
    intro m
    rw [add_tt_comm, add_tt, mult_st, List.zipWith_map_right]
  have hvel : ∀ (lr m : ℚ) (g' : Tensor),
      mult_add_st (-lr) g' (mult_st m v0)
      = List.zipWith (fun v_i g_i => m * v_i - lr * g_i) v0 g' := by
    intro lr m g'
    rw [mult_add_st_mult_st]
    have hf : (fun (a b : ℚ) => m * a + -lr * b)
        = fun v_i g_i => m * v_i - lr * g_i := by
      funext a b; ring
    rw [hf]
  have hpar : ∀ (lr m : ℚ) (g' : Tensor),
      mult_add_st (-lr) g'
        (List.zipWith (fun p_i v_i => p_i + m * v_i) net.parameters v0)
      = List.zipWith (fun x y => x + y) net.parameters
          (List.zipWith (fun v_i g_i => m * v_i - lr * g_i) v0 g') := by
    intro lr m g'
    exact nesterov_param_step m lr net.parameters v0 g'
  simp only [NesterovStep.run, Schedule.call, h1, h2,
    MomentumStep.effective_learning_rate, Schedule.peek, hlook, hvel, hpar]

/-- C1: after `start()`, `NesterovStep.run` first decays the velocity and
adds it to the parameters (lookahead) before the forward pass, runs the
forward and backward passes at the lookahead point (exactly one gradient
evaluation), then accumulates `gradients * (-lr)` into both velocity and
parameters, so `velocity' = m * velocity - lr * g` and
`parameters' = parameters + m * velocity - lr * g` with `g` the gradients
at the lookahead point, and returns the loss captured by the forward
pass. -/
theorem nesterov_run_spec (s : MomentumStep) (net : Network) (v0 : Tensor)
    (h1 : s.net = some net) (h2 : s.velocity = some v0) :
    NesterovStep.run s =
      Except.ok
        (net.lossFn (List.zipWith
          (fun p_i v_i => p_i + s.momentum_schedule.peek * v_i)
          net.parameters v0),
        { s with
            learning_rate_schedule :=
              ⟨s.learning_rate_schedule.f, s.learning_rate_schedule.t + 1⟩,
            momentum_schedule :=
              ⟨s.momentum_schedule.f, s.momentum_schedule.t + 1⟩,
            velocity := some (List.zipWith
              (fun v_i g_i => s.momentum_schedule.peek * v_i -
                s.effective_learning_rate * g_i)
              v0
              (net.gradFn (List.zipWith
                (fun p_i v_i => p_i + s.momentum_schedule.peek * v_i)
                net.parameters v0))),
            net := some { net with
              parameters := List.zipWith (fun x y => x + y) net.parameters
                (List.zipWith
                  (fun v_i g_i => s.momentum_schedule.peek * v_i -
                    s.effective_learning_rate * g_i)
                  v0
                  (net.gradFn (List.zipWith
                    (fun p_i v_i => p_i + s.momentum_schedule.peek * v_i)
                    net.parameters v0))),
              gradients := net.gradFn (List.zipWith
                (fun p_i v_i => p_i + s.momentum_schedule.peek * v_i)
                net.parameters v0) } },
        [Event.mult_st, Event.add_tt, Event.forward_pass true,
         Event.get_loss_value, Event.backward_pass, Event.mult_add_st,
         Event.mult_add_st]) :=
  nesterov_run_eq s net v0 h1 h2

/-- Witness for C1 at the concrete step `momv`. -/
theorem nesterov_run_spec_witness :
    momv.net = some net2 ∧ momv.velocity = some [1, -1] ∧
    NesterovStep.run momv =
      Except.ok
        (net2.lossFn (List.zipWith
          (fun p_i v_i => p_i + momv.momentum_schedule.peek * v_i)
          net2.parameters [1, -1]),
        { momv with
            learning_rate_schedule :=
              ⟨momv.learning_rate_schedule.f, momv.learning_rate_schedule.t + 1⟩,
            momentum_schedule :=
              ⟨momv.momentum_schedule.f, momv.momentum_schedule.t + 1⟩,
            velocity := some (List.zipWith
              (fun v_i g_i => momv.momentum_schedule.peek * v_i -
                momv.effective_learning_rate * g_i)
              [1, -1]
              (net2.gradFn (List.zipWith
                (fun p_i v_i => p_i + momv.momentum_schedule.peek * v_i)
                net2.parameters [1, -1]))),
            net := some { net2 with
              parameters := List.zipWith (fun x y => x + y) net2.parameters
                (List.zipWith
                  (fun v_i g_i => momv.momentum_schedule.peek * v_i -
                    momv.effective_learning_rate * g_i)
                  [1, -1]
                  (net2.gradFn (List.zipWith
                    (fun p_i v_i => p_i + momv.momentum_schedule.peek * v_i)
                    net2.parameters [1, -1]))),
              gradients := net2.gradFn (List.zipWith
                (fun p_i v_i => p_i + momv.momentum_schedule.peek * v_i)
                net2.parameters [1, -1]) } },
        [Event.mult_st, Event.add_tt, Event.forward_pass true,
         Event.get_loss_value, Event.backward_pass, Event.mult_add_st,
         Event.mult_add_st]) :=
  ⟨rfl, rfl, nesterov_run_spec momv net2 [1, -1] rfl rfl⟩

/-- C9: in every `MomentumStep.run` and `NesterovStep.run` call after
`start()`, the change applied to the parameters equals the post-run
velocity: `parameters' = parameters + velocity'`, even though
`NesterovStep` applies its parameter change in two separate pieces. -/
theorem params_delta_equals_velocity (s : MomentumStep) (net : Network)
    (v0 : Tensor) (h1 : s.net = some net) (h2 : s.velocity = some v0) :
    (∃ L S tr v' net', MomentumStep.run s = Except.ok (L, S, tr) ∧
        S.velocity = some v' ∧ S.net = some net' ∧
        net'.parameters = List.zipWith (fun x y => x + y) net.parameters v') ∧
    (∃ L S tr v' net', NesterovStep.run s = Except.ok (L, S, tr) ∧
        S.velocity = some v' ∧ S.net = some net' ∧
        net'.parameters = List.zipWith (fun x y => x + y) net.parameters v') := by
  constructor
  · refine ⟨_, _, _, _, _, momentum_run_eq s net v0 h1 h2, rfl, rfl, ?_⟩
    exact List.zipWith_comm_of_comm _ (fun x y => add_comm x y) _ _
  · exact ⟨_, _, _, _, _, nesterov_run_eq s net v0 h1 h2, rfl, rfl, rfl⟩

/-- Witness for C9 at the concrete step `momv`. -/
theorem params_delta_equals_velocity_witness :
    momv.net = some net2 ∧ momv.velocity = some [1, -1] ∧
    ((∃ L S tr v' net', MomentumStep.run momv = Except.ok (L, S, tr) ∧
        S.velocity = some v' ∧ S.net = some net' ∧
        net'.parameters = List.zipWith (fun x y => x + y) net2.parameters v') ∧
     (∃ L S tr v' net', NesterovStep.run momv = Except.ok (L, S, tr) ∧
        S.velocity = some v' ∧ S.net = some net' ∧
        net'.parameters = List.zipWith (fun x y => x + y) net2.parameters v')) :=
  ⟨rfl, rfl, params_delta_equals_velocity momv net2 [1, -1] rfl rfl⟩

theorem zipWith_zero_decay (lr : ℚ) :
    ∀ (v p g : Tensor), v.length = p.length →
      List.zipWith (fun x y => x + y)
        (List.zipWith (fun v_i g_i => 0 * v_i - lr * g_i) v g) p
      = List.zipWith (fun p_i g_i => p_i - lr * g_i) p g := by
  intro v
  induction v with
  | nil =>
      intro p g h
      have hp : p = [] := by simpa using h.symm
      simp [hp]
  | cons a v ih =>
      intro p g h
      cases p with
      | nil => simp at h
      | cons b p =>
          cases g with
          | nil => simp
          | cons x g =>
              simp only [List.zipWith_cons_cons]
              exact congrArg₂ _ (by ring) (ih p g (by simpa using h))

theorem zipWith_zero_lookahead :
    ∀ (p v : Tensor), v.length = p.length →
      List.zipWith (fun p_i v_i => p_i + 0 * v_i) p v = p := by
  intro p
  induction p with
  | nil => intro v h; simp
  | cons a p ih =>
      intro v h
      cases v with
      | nil => simp at h
      | cons b v =>
          simp only [List.zipWith_cons_cons]
          exact congrArg₂ _ (by ring) (ih v (by simpa using h))

/-- The parameter buffer a momentum-family `run()` result leaves behind,
or `none` on a fault. -/
def momRunParams (r : Except PyError (ℚ × MomentumStep × List Event)) :
    Option Tensor :=
  match r with
  | Except.ok (_, S, _) => S.net.map Network.parameters
  | Except.error _ => none

/-- The parameter buffer an `SgdStep.run()` result leaves behind, or
`none` on a fault. -/
def sgdRunParams (r : Except PyError (ℚ × SgdStep × List Event)) :
    Option Tensor :=
  match r with
  | Except.ok (_, S, _) => S.net.map Network.parameters
  | Except.error _ => none

/-- C4: with a momentum schedule that is constantly `0`, one
`MomentumStep.run` call and one `NesterovStep.run` call each leave the
same parameter buffer as one `SgdStep.run` call with the same learning
rate schedule on the same network (any `update` state), i.e. both reduce
exactly to SGD's `parameters - lr * gradients`. -/
theorem zero_momentum_reduces_to_sgd (s : MomentumStep) (net : Network)
    (v0 : Tensor) (u : Option Tensor)
    (h1 : s.net = some net) (h2 : s.velocity = some v0)
    (hm : ∀ k, s.momentum_schedule.f k = 0)
    (hv : v0.length = net.parameters.length) :
    momRunParams (MomentumStep.run s)
      = sgdRunParams (SgdStep.run ⟨some net, s.learning_rate_schedule, u⟩) ∧
    momRunParams (NesterovStep.run s)
      = sgdRunParams (SgdStep.run ⟨some net, s.learning_rate_schedule, u⟩) := by
  have hm0 : s.momentum_schedule.peek = 0 := hm _
  have hlr : s.effective_learning_rate = s.learning_rate_schedule.peek := by
    unfold MomentumStep.effective_learning_rate
    rw [hm0]
    split <;> ring
  constructor
  · rw [momentum_run_eq s net v0 h1 h2, sgd_run_eq _ net rfl]
    simp only [momRunParams, sgdRunParams, hm0, hlr, Option.map_some']
    exact congrArg _ (zipWith_zero_decay _ v0 net.parameters _ hv)
  · rw [nesterov_run_eq s net v0 h1 h2, sgd_run_eq _ net rfl]
    have hLA : List.zipWith (fun p_i v_i => p_i + 0 * v_i)
        net.parameters v0 = net.parameters :=
      zipWith_zero_lookahead net.parameters v0 hv
    simp only [momRunParams, sgdRunParams, hm0, hlr, hLA, Option.map_some']
    rw [List.zipWith_comm_of_comm _ (fun x y => add_comm x y) net.parameters]
    exact congrArg _ (zipWith_zero_decay _ v0 net.parameters _ hv)

/-- A `MomentumStep` on `net2` whose momentum schedule is constantly
zero. -/
def mom0 : MomentumStep :=
  ⟨some net2, ⟨fun _ => 1/10, 3⟩, ⟨fun _ => 0, 3⟩, true, some [1, -1]⟩

/-- Witness for C4 at the concrete step `mom0`. -/
theorem zero_momentum_reduces_to_sgd_witness :
    mom0.net = some net2 ∧ mom0.velocity = some [1, -1] ∧
    (∀ k, mom0.momentum_schedule.f k = 0) ∧
    ([1, -1] : Tensor).length = net2.parameters.length ∧
    (momRunParams (MomentumStep.run mom0)
        = sgdRunParams
            (SgdStep.run ⟨some net2, mom0.learning_rate_schedule, none⟩) ∧
     momRunParams (NesterovStep.run mom0)
        = sgdRunParams
            (SgdStep.run ⟨some net2, mom0.learning_rate_schedule, none⟩)) :=
  ⟨rfl, rfl, fun _ => rfl, rfl,
    zero_momentum_reduces_to_sgd mom0 net2 [1, -1] none rfl rfl
      (fun _ => rfl) rfl⟩

/-- C5: constructing a `MomentumStep` or a `NesterovStep` succeeds exactly
when `scale_learning_rate` is strictly a boolean; any non-boolean value
(e.g. the integer `1` or the string `"yes"`) fails the construction-time
assertion. -/
theorem scale_learning_rate_validation (lr m : ℚ) (v : PyVal) :
    (isOkB (MomentumStep.init lr m v) = true ↔ v.isinstance_bool = true) ∧
    (isOkB (NesterovStep.init lr m v) = true ↔ v.isinstance_bool = true) ∧
    (v.isinstance_bool = false →
      MomentumStep.init lr m v
        = Except.error "scale_learning_rate must be True or False.") := by
  cases v <;>
    simp [MomentumStep.init, NesterovStep.init, isOkB, PyVal.isinstance_bool]

/-- Witness for C5 at `scale_learning_rate = 1` (a Python `int`). -/
theorem scale_learning_rate_validation_witness :
    ((isOkB (MomentumStep.init (1/10) 0 (PyVal.int 1)) = true ↔
        (PyVal.int 1).isinstance_bool = true) ∧
     (isOkB (NesterovStep.init (1/10) 0 (PyVal.int 1)) = true ↔
        (PyVal.int 1).isinstance_bool = true) ∧
     ((PyVal.int 1).isinstance_bool = false →
        MomentumStep.init (1/10) 0 (PyVal.int 1)
          = Except.error "scale_learning_rate must be True or False.")) :=
  scale_learning_rate_validation (1/10) 0 (PyVal.int 1)

/-- C6: on a freshly constructed step, before any `start()`, the base
`TrainingStep.run` silently does nothing and returns no loss, while the
concrete steps each fail with an attribute-access fault on the unset
(`None`) network reference instead of returning a loss. -/
theorem run_before_start :
    TrainingStep.run TrainingStep.init = none ∧
    (∀ b : Bool, ∃ msg, ForwardStep.run (ForwardStep.init b)
        = Except.error (PyError.attributeError msg)) ∧
    (∀ lr : ℚ, ∃ msg, SgdStep.run (SgdStep.init lr)
        = Except.error (PyError.attributeError msg)) ∧
    (∀ (lr m : ℚ) (b : Bool) (st : MomentumStep),
        MomentumStep.init lr m (PyVal.bool b) = Except.ok st →
        (∃ msg, MomentumStep.run st
            = Except.error (PyError.attributeError msg)) ∧
        (∃ msg, NesterovStep.run st
            = Except.error (PyError.attributeError msg))) := by
  refine ⟨rfl, fun b => ⟨_, rfl⟩, fun lr => ⟨_, rfl⟩, ?_⟩
  intro lr m b st h
  have hst : st = ⟨none, get_schedule lr, get_schedule m, b, none⟩ := by
    simpa [MomentumStep.init] using h.symm
  subst hst
  exact ⟨⟨_, rfl⟩, ⟨_, rfl⟩⟩

/-- Witness for C6: the concrete fresh `MomentumStep` really faults. -/
theorem run_before_start_witness :
    (∃ msg, MomentumStep.run ⟨none, get_schedule (1/10), get_schedule 0,
        true, none⟩ = Except.error (PyError.attributeError msg)) ∧
    (∃ msg, NesterovStep.run ⟨none, get_schedule (1/10), get_schedule 0,
        true, none⟩ = Except.error (PyError.attributeError msg)) :=
  run_before_start.2.2.2 (1/10) 0 true _ rfl

/-- C7: immediately after `start(net)`, the auxiliary tensor (`update`
for `SgdStep`, `velocity` for `MomentumStep` and hence `NesterovStep`,
which inherits `start`) is allocated, has the parameters' shape, and is
all-zero. -/
theorem aux_tensor_after_start (sg : SgdStep) (sm : MomentumStep)
    (net : Network) :
    (∃ u, (SgdStep.start sg net).update = some u ∧
      u.length = net.parameters.length ∧ ∀ x ∈ u, x = 0) ∧
    (∃ v, (MomentumStep.start sm net).velocity = some v ∧
      v.length = net.parameters.length ∧ ∀ x ∈ v, x = 0) := by
  refine ⟨⟨_, rfl, ?_, ?_⟩, ⟨_, rfl, ?_, ?_⟩⟩
  · simp [zeros]
  · intro x hx
    simp [zeros, List.mem_replicate] at hx
    exact hx.2
  · simp [zeros]
  · intro x hx
    simp [zeros, List.mem_replicate] at hx
    exact hx.2

/-- Witness for C7 at concrete steps on `net2`. -/
theorem aux_tensor_after_start_witness :
    (∃ u, (SgdStep.start (SgdStep.init (1/10)) net2).update = some u ∧
      u.length = net2.parameters.length ∧ ∀ x ∈ u, x = 0) ∧
    (∃ v, (MomentumStep.start mom0 net2).velocity = some v ∧
      v.length = net2.parameters.length ∧ ∀ x ∈ v, x = 0) :=
  aux_tensor_after_start (SgdStep.init (1/10)) mom0 net2

/-- C8: after `start()`, `ForwardStep.run` issues exactly one forward pass
with `training_pass` equal to the `use_training_pass` construction flag
(whose construction default is `false`), returns the loss value, never
runs a backward pass, issues no handler tensor operation, and leaves the
step (hence the network's parameter and gradient buffers) unchanged. -/
theorem forward_run_spec (s : ForwardStep) (net : Network)
    (h1 : s.net = some net) :
    ForwardStep.run s =
      Except.ok (net.lossFn net.parameters, s,
        [Event.forward_pass s.use_training_pass, Event.get_loss_value]) ∧
    ForwardStep.initDefault.use_training_pass = false := by
  constructor
  · simp [ForwardStep.run, h1]
  · rfl

/-- A `ForwardStep` with the default flag, started on `net2`. -/
def fwd2 : ForwardStep := ForwardStep.start ForwardStep.initDefault net2

/-- Witness for C8 at the concrete step `fwd2`. -/
theorem forward_run_spec_witness :
    (ForwardStep.run fwd2 =
      Except.ok (net2.lossFn net2.parameters, fwd2,
        [Event.forward_pass fwd2.use_training_pass, Event.get_loss_value]) ∧
     ForwardStep.initDefault.use_training_pass = false) :=
  forward_run_spec fwd2 net2 rfl

/-!
### Description / serialization (C10)

Modelled from the spec: the `Describable` base machinery lives in
`brainstorm.describable`, which is not under `src/`; per the spec it
produces "a description/serialization form that omits environment-bound
fields (`net`, `update`, `velocity`)" while retaining configuration
fields. We model each class's instance-field list, its cumulative
`__undescribed__` set along the class hierarchy (the literal sets
`{'net'}`, `{'update'}`, `{'velocity'}` are in `steppers.py`), and the
described representation as the field list minus the excluded set.
-/

/-- Instance fields of `TrainingStep` (`self.net`). -/
def TrainingStep.instanceFields : List String := ["net"]

/-- Source `TrainingStep.__undescribed__ = {'net'}`. -/
def TrainingStep.undescribedSet : List String := ["net"]

def ForwardStep.instanceFields : List String := ["net", "use_training_pass"]

/-- Subclass `ForwardStep` declares no `__undescribed__` of its own; it inherits
the base set. -/
def ForwardStep.undescribedSet : List String := TrainingStep.undescribedSet

def SgdStep.instanceFields : List String :=
  ["net", "learning_rate_schedule", "update"]

/-- Source `SgdStep.__undescribed__ = {'update'}`, cumulated with the base set. -/
def SgdStep.undescribedSet : List String :=
  TrainingStep.undescribedSet ++ ["update"]

def MomentumStep.instanceFields : List String :=
  ["net", "velocity", "learning_rate_schedule", "momentum_schedule",
   "scale_learning_rate"]

/-- Source `MomentumStep.__undescribed__ = {'velocity'}`, cumulated with the
base set. -/
def MomentumStep.undescribedSet : List String :=
  TrainingStep.undescribedSet ++ ["velocity"]

/-- Subclass `NesterovStep` declares nothing of its own; it inherits
`MomentumStep`'s fields and sets. -/
def NesterovStep.instanceFields : List String := MomentumStep.instanceFields

def NesterovStep.undescribedSet : List String := MomentumStep.undescribedSet

/-- Modelled from the spec: the described representation keeps exactly
the instance fields not excluded by the cumulative `__undescribed__`
set. -/
def describedFields (fields excluded : List String) : List String :=
  fields.filter (fun f => !excluded.contains f)

/-- C10: the described/serialized representation omits `net` for every
step, additionally omits `update` for `SgdStep` and `velocity` for
`MomentumStep`/`NesterovStep`, and retains the configuration fields
(schedules and flags). -/
theorem described_representation :
    describedFields TrainingStep.instanceFields TrainingStep.undescribedSet
      = [] ∧
    describedFields ForwardStep.instanceFields ForwardStep.undescribedSet
      = ["use_training_pass"] ∧
    describedFields SgdStep.instanceFields SgdStep.undescribedSet
      = ["learning_rate_schedule"] ∧
    describedFields MomentumStep.instanceFields MomentumStep.undescribedSet
      = ["learning_rate_schedule", "momentum_schedule",
         "scale_learning_rate"] ∧
    describedFields NesterovStep.instanceFields NesterovStep.undescribedSet
      = ["learning_rate_schedule", "momentum_schedule",
         "scale_learning_rate"] :=
  ⟨rfl, rfl, rfl, rfl, rfl⟩

end Brainstorm
